import Mathlib

/-!
Shallow embedding of the Seasonal-Mortality notebook
(`MortalityAnalysis_11.12.2019.ipynb`).  The notebook manipulates a pandas
DataFrame; we model a DataFrame as a date index together with an ordered list
of named columns of rationals (real arithmetic is modelled by `ℚ`).  Column
access `df[name]` raises `KeyError` in pandas when the column is absent, which
we model with `Except`.
-/

namespace SeasonalMortality

/-- A quarter-end date, the index values of the mortality table. -/
structure QDate where
  year : Nat
  month : Nat
  day : Nat
deriving DecidableEq, Repr, Inhabited

/-- A column of the table: one rational value per row. -/
abbrev Col := List ℚ

/-- A pandas DataFrame: a date index plus an ordered list of named columns. -/
structure Table where
  index : List QDate
  cols : List (String × Col)
deriving DecidableEq, Repr, Inhabited

/-- The names of the columns, in order (`df.columns`). -/
def Table.colNames (t : Table) : List String :=
  t.cols.map Prod.fst

/-- Look up a column by name, `none` when absent. -/
def Table.getCol? (t : Table) (name : String) : Option Col :=
  Option.map Prod.snd (t.cols.find? (fun c => c.1 == name))

/-- Column access `df[name]`: `KeyError` when the column is absent. -/
def Table.getCol (t : Table) (name : String) : Except String Col :=
  match t.getCol? name with
  | some v => Except.ok v
  | none => Except.error ("KeyError: " ++ name)

/-- Column assignment `df[name] = v`: replace in place when the name exists,
otherwise append at the end (pandas semantics). -/
def Table.setCol (t : Table) (name : String) (v : Col) : Table :=
  if t.cols.any (fun c => c.1 == name) then
    { t with cols := t.cols.map (fun c => if c.1 == name then (name, v) else c) }
  else
    { t with cols := t.cols ++ [(name, v)] }

/-- Elementwise product of two columns (pandas `Series * Series`). -/
def colMul (a b : Col) : Col := List.zipWith (fun x y => x * y) a b

/-- Elementwise sum of two columns (pandas `Series + Series`). -/
def colAdd (a b : Col) : Col := List.zipWith (fun x y => x + y) a b

/-- The value of column `nm` at row `i` (0 outside the table). -/
def cellD (t : Table) (nm : String) (i : Nat) : ℚ :=
  (Option.getD (t.getCol? nm) []).getD i 0

/-- The age-group labels of cell 5: `agelist = ["65","75","85"]`. -/
def agelist : List String := ["65", "75", "85"]

/-- First cell-5 loop body: `age_col = mydata["Age=M"+age]+mydata["Age=F"+age];
mydata["WINT_"+age] = mydata["Winter"]*age_col;
mydata["IMP_"+age] = mydata["Year"]*age_col`. -/
def addSeasonFeatures (t : Table) (age : String) : Except String Table := do
  let m ← t.getCol ("Age=M" ++ age)
  let f ← t.getCol ("Age=F" ++ age)
  let ageCol := colAdd m f
  let w ← t.getCol "Winter"
  let t1 := t.setCol ("WINT_" ++ age) (colMul w ageCol)
  let y ← t1.getCol "Year"
  pure (t1.setCol ("IMP_" ++ age) (colMul y ageCol))

/-- Second cell-5 loop body: `mydata["AF_"+age] = mydata["AF"]*age_col;
mydata["VE_"+age] = mydata["VE"]*age_col`. -/
def addWeatherFeatures (t : Table) (age : String) : Except String Table := do
  let m ← t.getCol ("Age=M" ++ age)
  let f ← t.getCol ("Age=F" ++ age)
  let ageCol := colAdd m f
  let af ← t.getCol "AF"
  let t1 := t.setCol ("AF_" ++ age) (colMul af ageCol)
  let ve ← t1.getCol "VE"
  pure (t1.setCol ("VE_" ++ age) (colMul ve ageCol))

/-- The cell-5 Feature Builder: both loops over the age groups. -/
def buildFeatures (ages : List String) (t : Table) : Except String Table := do
  let t1 ← List.foldlM addSeasonFeatures t ages
  List.foldlM addWeatherFeatures t1 ages

/-- Modelled from the spec: the pickled dataset `MortalityData_2010to2019` is
not in the repository; its column set and order are taken from the notebook's
own data-structure table (Deaths, Persons, Persons_NoAdj, Rate, Rate_NoAdj,
Year, Winter, AF, VE, then the male and female age-group indicators). -/
def mkInput (dates : List QDate)
    (vDeaths vPersons vPersonsNA vRate vRateNA vYear vWinter vAF vVE
      m65 m75 m85 f65 f75 f85 : Col) : Table :=
  { index := dates,
    cols := [("Deaths", vDeaths), ("Persons", vPersons),
             ("Persons_NoAdj", vPersonsNA), ("Rate", vRate),
             ("Rate_NoAdj", vRateNA), ("Year", vYear), ("Winter", vWinter),
             ("AF", vAF), ("VE", vVE),
             ("Age=M65", m65), ("Age=M75", m75), ("Age=M85", m85),
             ("Age=F65", f65), ("Age=F75", f75), ("Age=F85", f85)] }

/-- The table produced by the cell-5 Feature Builder on a well-formed input:
the original columns followed by the twelve interaction columns, in the order
the two loops append them.  Proved equal to `buildFeatures` below. -/
def mkBuilt (dates : List QDate)
    (vDeaths vPersons vPersonsNA vRate vRateNA vYear vWinter vAF vVE
      m65 m75 m85 f65 f75 f85 : Col) : Table :=
  { index := dates,
    cols := [("Deaths", vDeaths), ("Persons", vPersons),
             ("Persons_NoAdj", vPersonsNA), ("Rate", vRate),
             ("Rate_NoAdj", vRateNA), ("Year", vYear), ("Winter", vWinter),
             ("AF", vAF), ("VE", vVE),
             ("Age=M65", m65), ("Age=M75", m75), ("Age=M85", m85),
             ("Age=F65", f65), ("Age=F75", f75), ("Age=F85", f85),
             ("WINT_65", colMul vWinter (colAdd m65 f65)),
             ("IMP_65", colMul vYear (colAdd m65 f65)),
             ("WINT_75", colMul vWinter (colAdd m75 f75)),
             ("IMP_75", colMul vYear (colAdd m75 f75)),
             ("WINT_85", colMul vWinter (colAdd m85 f85)),
             ("IMP_85", colMul vYear (colAdd m85 f85)),
             ("AF_65", colMul vAF (colAdd m65 f65)),
             ("VE_65", colMul vVE (colAdd m65 f65)),
             ("AF_75", colMul vAF (colAdd m75 f75)),
             ("VE_75", colMul vVE (colAdd m75 f75)),
             ("AF_85", colMul vAF (colAdd m85 f85)),
             ("VE_85", colMul vVE (colAdd m85 f85))] }

set_option maxHeartbeats 1600000 in
/-- Evaluating the Feature Builder on a schema-conforming input. -/
theorem buildFeatures_mkInput (dates : List QDate)
    (vd vp vpn vr vrn vy vw vaf vve m65 m75 m85 f65 f75 f85 : Col) :
    buildFeatures agelist (mkInput dates vd vp vpn vr vrn vy vw vaf vve m65 m75 m85 f65 f75 f85) =
      Except.ok (mkBuilt dates vd vp vpn vr vrn vy vw vaf vve m65 m75 m85 f65 f75 f85) := by
  simp only [buildFeatures, addSeasonFeatures, addWeatherFeatures, mkInput, mkBuilt, agelist,
    Table.getCol, Table.getCol?, Table.setCol, List.foldlM, List.find?, List.any,
    bind, Except.bind, pure, Option.map, String.reduceBEq, String.reduceAppend, cond,
    Bool.true_or, Bool.or_true, ite_true, ite_false, reduceIte, Bool.false_eq_true,
    Bool.true_eq_false, if_true, if_false, Except.pure, List.append_eq, Bool.or_false,
    Bool.false_or, List.map, List.append]
  rfl

/-- Pandas `df.drop(columns=names)`: remove the named columns, keeping order. -/
def dropCols (names : List String) (t : Table) : Table :=
  { t with cols := t.cols.filter (fun c => !(names.contains c.1)) }

/-- Insert an element at position `i` of a list (append when `i` exceeds the
length), modelling `df.insert(i, name, value)`. -/
def insertAt (i : Nat) (x : α) : List α → List α
  | [] => [x]
  | y :: ys =>
    match i with
    | 0 => x :: y :: ys
    | j + 1 => y :: insertAt j x ys

/-- Pandas `df.insert(i, name, v)`. -/
def insertCol (i : Nat) (name : String) (v : Col) (t : Table) : Table :=
  { t with cols := insertAt i (name, v) t.cols }

/-- An all-zero column of length `n` (the inserted placeholders). -/
def zerosCol (n : Nat) : Col := List.replicate n 0

/-- Cell 5 tail: `X = mydata.copy()`, drop `VE, Year, Winter, AF`, insert the
four prediction placeholder columns at positions 5-8. -/
def prepareX (t : Table) : Table :=
  let n := t.index.length
  let x0 := dropCols ["VE", "Year", "Winter", "AF"] t
  let x1 := insertCol 5 "PredR" (zerosCol n) x0
  let x2 := insertCol 6 "PredD" (zerosCol n) x1
  let x3 := insertCol 7 "PredR_Base" (zerosCol n) x2
  insertCol 8 "PredD_Base" (zerosCol n) x3

/-- Pandas `df.iloc[:, i:]`. -/
def ilocFrom (i : Nat) (t : Table) : Table :=
  { t with cols := t.cols.drop i }

/-- Pandas `df.iloc[:, :i]`. -/
def ilocTake (i : Nat) (t : Table) : Table :=
  { t with cols := t.cols.take i }

/-- Pandas `df.iloc[:, a:b]`. -/
def ilocRange (a b : Nat) (t : Table) : Table :=
  { t with cols := (t.cols.take b).drop a }

/-- A fitted `LinearRegression`: `coef_` and `intercept_`. -/
structure Model where
  coef : List ℚ
  intercept : ℚ
deriving DecidableEq, Repr, Inhabited

/-- Dot product of two lists. -/
def dot (xs ys : List ℚ) : ℚ := (List.zipWith (fun x y => x * y) xs ys).sum

/-- An OLS prediction for one row: `coef · x + intercept`. -/
def Model.predictRow (m : Model) (xs : List ℚ) : ℚ := dot m.coef xs + m.intercept

/-- Row `i` of the table, as the list of column values at `i`. -/
def Table.row (t : Table) (i : Nat) : List ℚ :=
  t.cols.map (fun c => c.2.getD i 0)

/-- Sklearn `model.predict(df)`: one prediction per row of the table. -/
def predictCol (m : Model) (t : Table) : Col :=
  (List.range t.index.length).map (fun i => m.predictRow (t.row i))

/-- Cell 7 `mydata['Persons'] * pred / 1000 / 52`: predicted rate to predicted death
count. -/
def predDCol (persons pred : Col) : Col :=
  List.zipWith (fun p r => p * r / 1000 / 52) persons pred

/-- One contribution column of `X_cont`: predictor values times the feature's
coefficient, times `Persons`, `/ 1000 / 52`. -/
def contCol (k : ℚ) (c persons : Col) : Col :=
  List.zipWith (fun v p => v * k * p / 1000 / 52) c persons

/-- Cell 7 `X_cont = X_pred.mul(model.coef_, axis=1).mul(list(mydata["Persons"]), axis=0)/1000/52`. -/
def contTable (m : Model) (persons : Col) (xpred : Table) : Table :=
  { index := xpred.index,
    cols := List.zipWith (fun c k => (c.1, contCol k c.2 persons)) xpred.cols m.coef }

/-- Select the given entries of a column (`series.iloc[idxs]`). -/
def selectIdx (idxs : List Nat) (c : Col) : Col :=
  idxs.map (fun i => c.getD i 0)

/-- Select the given rows of a table (`df.iloc[idxs]`). -/
def selectRows (idxs : List Nat) (t : Table) : Table :=
  { index := idxs.map (fun i => t.index.getD i default),
    cols := t.cols.map (fun c => (c.1, selectIdx idxs c.2)) }

/-- A 64-bit linear congruential step, the pseudo-random generator driving the
modelled shuffle. -/
def lcg (s : Nat) : Nat := (6364136223846793005 * s + 1442695040888963407) % (2 ^ 64)

/-- Seeded Fisher-Yates-style selection shuffle (fuel-recursive). -/
def shuffleGo (s : Nat) (xs : List Nat) : Nat → List Nat
  | 0 => xs
  | fuel + 1 =>
    if xs.isEmpty then []
    else
      let i := s % xs.length
      xs.getD i 0 :: shuffleGo (lcg s) (xs.take i ++ xs.drop (i + 1)) fuel

/-- Modelled from the spec: `train_test_split(..., random_state=seed)` permutes
the row indices with a PRNG seeded by `random_state`; the exact numpy
permutation is library-internal, so it is modelled by a deterministic seeded
shuffle of `range n`, as the spec's splitter contract requires. -/
def permutation (seed n : Nat) : List Nat := shuffleGo seed (List.range n) n

/-- Sklearn `train_test_split(X, y, test_size, random_state=seed)`: the shuffled index
list is cut after `ceil(test_size * n)` test rows; returns
`(X_train, X_test, y_train, y_test)`. -/
def trainTestSplit (X : Table) (y : Col) (testSize : ℚ) (seed : Nat) :
    Table × Table × Col × Col :=
  let n := X.index.length
  let nTest := (Int.ceil (testSize * n)).toNat
  let perm := permutation seed n
  let testIdx := perm.take nTest
  let trainIdx := perm.drop nTest
  (selectRows trainIdx X, selectRows testIdx X, selectIdx trainIdx y, selectIdx testIdx y)

/-- The two cell-7 fits.  `fit` stands for the least-squares routine
`LinearRegression().fit`; the notebook passes it `(X_train, y_train)` for the
full model and `(X_train.iloc[:,:12], y_train)` for the base model. -/
def fittedModels (fit : Table → Col → Model) (xpred : Table) (y : Col)
    (seed : Nat) : Model × Model :=
  let s := trainTestSplit xpred y (1/5) seed
  (fit s.1 s.2.2.1, fit (ilocTake 12 s.1) s.2.2.1)

/-- Cell 7 prediction block: `X["PredR"] = model.predict(X_pred)`,
`X["PredD"] = mydata['Persons']*X["PredR"]/1000/52`, then the same for the
base model on `X_pred.iloc[:,:12]`. -/
def applyModel (nameR nameD : String) (m : Model) (persons : Col) (xp X : Table) :
    Except String Table := do
  let x1 := X.setCol nameR (predictCol m xp)
  let pr ← x1.getCol nameR
  pure (x1.setCol nameD (predDCol persons pr))

/-- Both models applied to the whole table (train and holdout rows alike). -/
def runPredictions (m mbase : Model) (persons : Col) (X : Table) :
    Except String Table := do
  let xpred := ilocFrom 9 X
  let x1 ← applyModel "PredR" "PredD" m persons xpred X
  applyModel "PredR_Base" "PredD_Base" mbase persons (ilocTake 12 xpred) x1

/-- The `KFold(n_splits=k)` splits used by `cross_val_score(..., cv=5)`:
contiguous test blocks, the first `n % k` of size `n/k + 1`, no shuffling.
Returns `(train indices, test indices)` per fold. -/
def kfoldSplits (k n : Nat) : List (List Nat × List Nat) :=
  (List.range k).map (fun f =>
    let base := n / k
    let extra := n % k
    let start := f * base + min f extra
    let size := base + (if f < extra then 1 else 0)
    ((List.range n).filter (fun i => decide (i < start) || decide (start + size ≤ i)),
     (List.range size).map (fun j => start + j)))

/-- Sklearn `cross_val_score(LinearRegression(), X, y, cv=k)`: one score per fold;
`score` stands for fitting on the fold's training rows and scoring (R²) on its
test rows, which is library-internal. -/
def crossValScore (score : Table → Col → Table → Col → ℚ) (X : Table) (y : Col)
    (k : Nat) : List ℚ :=
  (kfoldSplits k X.index.length).map (fun s =>
    score (selectRows s.1 X) (selectIdx s.1 y) (selectRows s.2 X) (selectIdx s.2 y))

/-- Keep only the rows at the given positions. -/
def Table.filterRows (t : Table) (keep : List Nat) : Table :=
  { index := keep.map (fun i => t.index.getD i default),
    cols := t.cols.map (fun c => (c.1, keep.map (fun i => c.2.getD i 0))) }

/-- The age-group filter `X[(X["Age=M"+age] == 1) | (X["Age=F"+age] == 1)]`. -/
def bandFilter (age : String) (t : Table) : Except String Table := do
  let m ← t.getCol ("Age=M" ++ age)
  let f ← t.getCol ("Age=F" ++ age)
  pure (t.filterRows ((List.range t.index.length).filter
    (fun i => m.getD i 0 == 1 || f.getD i 0 == 1)))

/-- The row positions carrying date `d` (`df.index == d`). -/
def datePositions (t : Table) (d : QDate) : List Nat :=
  (List.range t.index.length).filter (fun i => t.index.getD i default == d)

/-- Pandas `df.groupby(df.index).sum()`: one row per distinct date, each column summed
over the rows carrying that date. -/
def Table.groupSum (t : Table) : Table :=
  let ds := t.index.dedup
  { index := ds,
    cols := t.cols.map (fun c =>
      (c.1, ds.map (fun d => ((datePositions t d).map (fun i => c.2.getD i 0)).sum))) }

/-- The row positions in the winter quarter: `df.index.month == 2`. -/
def winterRows (t : Table) : List Nat :=
  (List.range t.index.length).filter (fun i => (t.index.getD i default).month == 2)

/-- The winter-quarter filter `Xg[Xg.index.month == 2]`. -/
def winterFilter (t : Table) : Table := t.filterRows (winterRows t)

/-- The aggregated rate series `Xg['Deaths']/Xg['Persons']*1000*52` over a
grouped table. -/
def rateSeries (g : Table) : Except String Col := do
  let dsum ← g.getCol "Deaths"
  let psum ← g.getCol "Persons"
  pure (List.zipWith (fun a b => a / b * 1000 * 52) dsum psum)

/-- The whole cell-5/cell-7 computation up to the two fitted models: build the
interaction features, prepare `X`, split and fit.  Feature building precedes
any fitting, as in the notebook. -/
def runAnalysis (fit : Table → Col → Model) (seed : Nat) (t : Table) :
    Except String (Model × Model) := do
  let tf ← buildFeatures agelist t
  let X := prepareX tf
  let xpred := ilocFrom 9 X
  let rate ← X.getCol "Rate"
  pure (fittedModels fit xpred rate seed)

/-- The prepared table `X`: dropped raw predictors, prediction placeholders at
positions 5-8, indicators from position 9, interactions to position 26.
Proved equal to `prepareX ∘ buildFeatures` below. -/
def mkX (dates : List QDate)
    (vDeaths vPersons vPersonsNA vRate vRateNA vYear vWinter vAF vVE
      m65 m75 m85 f65 f75 f85 : Col) : Table :=
  { index := dates,
    cols := [("Deaths", vDeaths), ("Persons", vPersons),
             ("Persons_NoAdj", vPersonsNA), ("Rate", vRate),
             ("Rate_NoAdj", vRateNA),
             ("PredR", zerosCol dates.length), ("PredD", zerosCol dates.length),
             ("PredR_Base", zerosCol dates.length), ("PredD_Base", zerosCol dates.length),
             ("Age=M65", m65), ("Age=M75", m75), ("Age=M85", m85),
             ("Age=F65", f65), ("Age=F75", f75), ("Age=F85", f85),
             ("WINT_65", colMul vWinter (colAdd m65 f65)),
             ("IMP_65", colMul vYear (colAdd m65 f65)),
             ("WINT_75", colMul vWinter (colAdd m75 f75)),
             ("IMP_75", colMul vYear (colAdd m75 f75)),
             ("WINT_85", colMul vWinter (colAdd m85 f85)),
             ("IMP_85", colMul vYear (colAdd m85 f85)),
             ("AF_65", colMul vAF (colAdd m65 f65)),
             ("VE_65", colMul vVE (colAdd m65 f65)),
             ("AF_75", colMul vAF (colAdd m75 f75)),
             ("VE_75", colMul vVE (colAdd m75 f75)),
             ("AF_85", colMul vAF (colAdd m85 f85)),
             ("VE_85", colMul vVE (colAdd m85 f85))] }

set_option maxHeartbeats 800000 in
/-- Evaluating the `X` preparation on the built table. -/
theorem prepareX_mkBuilt (dates : List QDate)
    (vd vp vpn vr vrn vy vw vaf vve m65 m75 m85 f65 f75 f85 : Col) :
    prepareX (mkBuilt dates vd vp vpn vr vrn vy vw vaf vve m65 m75 m85 f65 f75 f85) =
      mkX dates vd vp vpn vr vrn vy vw vaf vve m65 m75 m85 f65 f75 f85 := by
  simp only [prepareX, dropCols, insertCol, insertAt, zerosCol, mkBuilt, mkX,
    List.filter, List.contains, List.elem, String.reduceBEq, Bool.or_false, Bool.false_or,
    Bool.true_or, Bool.or_true, Bool.not_true, Bool.not_false, cond, ite_true, ite_false,
    reduceIte, Bool.false_eq_true, Bool.true_eq_false]

/-- The predictor block `X_pred = X.iloc[:,9:]`: six age indicators, six
age/winter and age/year interactions, six weather/vaccine interactions. -/
def mkXpredictors (dates : List QDate)
    (vYear vWinter vAF vVE m65 m75 m85 f65 f75 f85 : Col) : Table :=
  { index := dates,
    cols := [("Age=M65", m65), ("Age=M75", m75), ("Age=M85", m85),
             ("Age=F65", f65), ("Age=F75", f75), ("Age=F85", f85),
             ("WINT_65", colMul vWinter (colAdd m65 f65)),
             ("IMP_65", colMul vYear (colAdd m65 f65)),
             ("WINT_75", colMul vWinter (colAdd m75 f75)),
             ("IMP_75", colMul vYear (colAdd m75 f75)),
             ("WINT_85", colMul vWinter (colAdd m85 f85)),
             ("IMP_85", colMul vYear (colAdd m85 f85)),
             ("AF_65", colMul vAF (colAdd m65 f65)),
             ("VE_65", colMul vVE (colAdd m65 f65)),
             ("AF_75", colMul vAF (colAdd m75 f75)),
             ("VE_75", colMul vVE (colAdd m75 f75)),
             ("AF_85", colMul vAF (colAdd m85 f85)),
             ("VE_85", colMul vVE (colAdd m85 f85))] }

/-- Slicing `X.iloc[:,9:]` of the prepared table is the predictor block. -/
theorem ilocFrom_mkX (dates : List QDate)
    (vd vp vpn vr vrn vy vw vaf vve m65 m75 m85 f65 f75 f85 : Col) :
    ilocFrom 9 (mkX dates vd vp vpn vr vrn vy vw vaf vve m65 m75 m85 f65 f75 f85) =
      mkXpredictors dates vy vw vaf vve m65 m75 m85 f65 f75 f85 := by
  rfl

/-- The table `X` after cell 7 wrote the four prediction columns. -/
def mkXPred (m mbase : Model) (dates : List QDate)
    (vDeaths vPersons vPersonsNA vRate vRateNA vYear vWinter vAF vVE
      m65 m75 m85 f65 f75 f85 : Col) : Table :=
  let xp := mkXpredictors dates vYear vWinter vAF vVE m65 m75 m85 f65 f75 f85
  { index := dates,
    cols := [("Deaths", vDeaths), ("Persons", vPersons),
             ("Persons_NoAdj", vPersonsNA), ("Rate", vRate),
             ("Rate_NoAdj", vRateNA),
             ("PredR", predictCol m xp),
             ("PredD", predDCol vPersons (predictCol m xp)),
             ("PredR_Base", predictCol mbase (ilocTake 12 xp)),
             ("PredD_Base", predDCol vPersons (predictCol mbase (ilocTake 12 xp))),
             ("Age=M65", m65), ("Age=M75", m75), ("Age=M85", m85),
             ("Age=F65", f65), ("Age=F75", f75), ("Age=F85", f85),
             ("WINT_65", colMul vWinter (colAdd m65 f65)),
             ("IMP_65", colMul vYear (colAdd m65 f65)),
             ("WINT_75", colMul vWinter (colAdd m75 f75)),
             ("IMP_75", colMul vYear (colAdd m75 f75)),
             ("WINT_85", colMul vWinter (colAdd m85 f85)),
             ("IMP_85", colMul vYear (colAdd m85 f85)),
             ("AF_65", colMul vAF (colAdd m65 f65)),
             ("VE_65", colMul vVE (colAdd m65 f65)),
             ("AF_75", colMul vAF (colAdd m75 f75)),
             ("VE_75", colMul vVE (colAdd m75 f75)),
             ("AF_85", colMul vAF (colAdd m85 f85)),
             ("VE_85", colMul vVE (colAdd m85 f85))] }

set_option maxHeartbeats 1600000 in
/-- Evaluating the cell-7 prediction block on the prepared table. -/
theorem runPredictions_mkX (m mbase : Model) (dates : List QDate)
    (vd vp vpn vr vrn vy vw vaf vve m65 m75 m85 f65 f75 f85 : Col) :
    runPredictions m mbase vp (mkX dates vd vp vpn vr vrn vy vw vaf vve m65 m75 m85 f65 f75 f85) =
      Except.ok (mkXPred m mbase dates vd vp vpn vr vrn vy vw vaf vve m65 m75 m85 f65 f75 f85) := by
  simp only [runPredictions, applyModel, mkX, mkXPred, mkXpredictors, ilocFrom, ilocTake,
    Table.getCol, Table.getCol?, Table.setCol, List.find?, List.any, List.take, List.drop,
    bind, Except.bind, pure, Except.pure, Option.map, String.reduceBEq, cond,
    Bool.true_or, Bool.or_true, Bool.or_false, Bool.false_or, ite_true, ite_false,
    reduceIte, Bool.false_eq_true, Bool.true_eq_false, if_true, if_false, List.map,
    List.append]

theorem getD_zipWith (f : ℚ → ℚ → ℚ) :
    ∀ (a b : Col) (i : Nat), i < a.length → i < b.length →
      ∀ d, (List.zipWith f a b).getD i d = f (a.getD i d) (b.getD i d)
  | [], _, i, ha, _, _ => absurd ha (by simp)
  | _ :: _, [], i, _, hb, _ => absurd hb (by simp)
  | x :: xs, y :: ys, 0, _, _, d => rfl
  | x :: xs, y :: ys, i + 1, ha, hb, d => by
    simpa using getD_zipWith f xs ys i (by simpa using ha) (by simpa using hb) d

theorem getD_range_map (f : Nat → ℚ) (n i : Nat) (hi : i < n) (d : ℚ) :
    ((List.range n).map f).getD i d = f i := by
  have hl : i < ((List.range n).map f).length := by simpa using hi
  rw [List.getD_eq_getElem _ _ hl]
  simp

theorem getD_of_le (c : Col) (i : Nat) (h : c.length ≤ i) (d : ℚ) : c.getD i d = d := by
  rw [List.getD_eq_getElem?_getD, List.getElem?_eq_none (by simpa using h)]
  rfl

/-- A column name is found exactly when it is among the column names. -/
theorem getCol?_eq_none_iff (t : Table) (nm : String) :
    t.getCol? nm = none ↔ nm ∉ t.colNames := by
  unfold Table.getCol? Table.colNames
  constructor
  · intro h hmem
    have hfind : t.cols.find? (fun c => c.1 == nm) = none := by
      cases hf : t.cols.find? (fun c => c.1 == nm) with
      | none => rfl
      | some c => rw [hf] at h; simp at h
    rw [List.find?_eq_none] at hfind
    rcases List.mem_map.mp hmem with ⟨x, hx, hfst⟩
    exact hfind x hx (by simp [hfst])
  · intro hmem
    cases hf : t.cols.find? (fun c => c.1 == nm) with
    | none => rfl
    | some c =>
      exfalso
      have hc := List.mem_of_find?_eq_some hf
      have hp := List.find?_some hf
      exact hmem (List.mem_map.mpr ⟨c, hc, by simpa using hp⟩)

theorem getCol_ok_mem (t : Table) (nm : String) (c : Col)
    (h : t.getCol nm = Except.ok c) : nm ∈ t.colNames := by
  by_contra hmem
  have := (getCol?_eq_none_iff t nm).mpr hmem
  simp [Table.getCol, this] at h

theorem getCol_error_of_missing (t : Table) (nm : String) (h : nm ∉ t.colNames) :
    t.getCol nm = Except.error ("KeyError: " ++ nm) := by
  simp [Table.getCol, (getCol?_eq_none_iff t nm).mpr h]

/-- Assignment `setCol` introduces no column name other than the one assigned. -/
theorem mem_colNames_setCol (t : Table) (nm : String) (v : Col) (x : String)
    (hx : x ∈ (t.setCol nm v).colNames) : x ∈ t.colNames ∨ x = nm := by
  unfold Table.setCol at hx
  by_cases h : t.cols.any (fun c => c.1 == nm)
  · rw [if_pos h] at hx
    unfold Table.colNames at hx ⊢
    rcases List.mem_map.mp hx with ⟨c, hc, hfst⟩
    rcases List.mem_map.mp hc with ⟨c0, hc0, hc0e⟩
    by_cases he : c0.1 == nm
    · right
      rw [if_pos he] at hc0e
      rw [← hfst, ← hc0e]
    · left
      rw [if_neg he] at hc0e
      exact List.mem_map.mpr ⟨c0, hc0, by rw [← hfst, ← hc0e]⟩
  · rw [if_neg h] at hx
    unfold Table.colNames at hx ⊢
    rcases List.mem_map.mp hx with ⟨c, hc, hfst⟩
    rcases List.mem_append.mp hc with hc1 | hc2
    · exact Or.inl (List.mem_map.mpr ⟨c, hc1, hfst⟩)
    · right
      rw [List.mem_singleton] at hc2
      rw [← hfst, hc2]

/-- Inversion for `Except.bind` returning `ok`. -/
theorem except_bind_ok {α β : Type} (x : Except String α) (f : α → Except String β)
    (b : β) (h : x.bind f = Except.ok b) : ∃ a, x = Except.ok a ∧ f a = Except.ok b := by
  cases x with
  | error e => simp [Except.bind] at h
  | ok a => exact ⟨a, rfl, by simpa [Except.bind] using h⟩

/-- An `Except.bind` whose first stage errors, errors. -/
theorem except_bind_error {α β : Type} (x : Except String α) (f : α → Except String β)
    (e : String) (h : x = Except.error e) : x.bind f = Except.error e := by
  rw [h]; rfl

/-- Dropping list entries on which the summand vanishes does not change a sum. -/
theorem sum_map_filter_of_zero (l : List Nat) (p : Nat → Bool) (g : Nat → ℚ)
    (h : ∀ i ∈ l, p i = false → g i = 0) :
    (l.map g).sum = ((l.filter p).map g).sum := by
  induction l with
  | nil => rfl
  | cons a l ih =>
    have ih' := ih (fun i hi => h i (List.mem_cons_of_mem a hi))
    by_cases hp : p a
    · rw [List.filter_cons_of_pos hp]
      simp [ih']
    · rw [List.filter_cons_of_neg (by simpa using hp)]
      have : g a = 0 := h a (List.mem_cons_self a l) (by simpa using hp)
      simp [this, ih']

/-- All the given columns have length `n`. -/
def colsLen (n : Nat) (cs : List Col) : Prop := ∀ c ∈ cs, c.length = n

instance colsLenDecidable (n : Nat) (cs : List Col) : Decidable (colsLen n cs) :=
  inferInstanceAs (Decidable (∀ c ∈ cs, c.length = n))

theorem getD_colMul_colAdd (b m f : Col) (n i : Nat)
    (hb : b.length = n) (hm : m.length = n) (hf : f.length = n) (hi : i < n) :
    (colMul b (colAdd m f)).getD i 0 = b.getD i 0 * (m.getD i 0 + f.getD i 0) := by
  unfold colMul colAdd
  rw [getD_zipWith _ b _ i (by omega) (by rw [List.length_zipWith]; omega),
    getD_zipWith _ m f i (by omega) (by omega)]

/-- C1: for every row of the observation table, every age band `a` in
`{65, 75, 85}` and every base feature `f` in {winter-indicator (`Winter`),
year-index (`Year`), frost-days (`AF`), vaccine-effectiveness (`VE`)}, the
Feature Builder adds a column `f_a` (`WINT_a`, `IMP_a`, `AF_a`, `VE_a`) whose
value on that row equals `row[f] * (row["Age=M" + a] + row["Age=F" + a])`. -/
theorem C1_feature_builder (dates : List QDate)
    (vd vp vpn vr vrn vy vw vaf vve m65 m75 m85 f65 f75 f85 : Col) (n : Nat)
    (t : Table)
    (ht : t = mkInput dates vd vp vpn vr vrn vy vw vaf vve m65 m75 m85 f65 f75 f85)
    (hlen : colsLen n [vy, vw, vaf, vve, m65, m75, m85, f65, f75, f85])
    (a : String) (ha : a ∈ agelist) (i : Nat) (hi : i < n) :
    ∃ T, buildFeatures agelist t = Except.ok T ∧
      cellD T ("WINT_" ++ a) i =
        cellD t "Winter" i * (cellD t ("Age=M" ++ a) i + cellD t ("Age=F" ++ a) i) ∧
      cellD T ("IMP_" ++ a) i =
        cellD t "Year" i * (cellD t ("Age=M" ++ a) i + cellD t ("Age=F" ++ a) i) ∧
      cellD T ("AF_" ++ a) i =
        cellD t "AF" i * (cellD t ("Age=M" ++ a) i + cellD t ("Age=F" ++ a) i) ∧
      cellD T ("VE_" ++ a) i =
        cellD t "VE" i * (cellD t ("Age=M" ++ a) i + cellD t ("Age=F" ++ a) i) := by
  subst ht
  have Hvy := hlen vy (by simp)
  have Hvw := hlen vw (by simp)
  have Hvaf := hlen vaf (by simp)
  have Hvve := hlen vve (by simp)
  have Hm65 := hlen m65 (by simp)
  have Hm75 := hlen m75 (by simp)
  have Hm85 := hlen m85 (by simp)
  have Hf65 := hlen f65 (by simp)
  have Hf75 := hlen f75 (by simp)
  have Hf85 := hlen f85 (by simp)
  refine ⟨_, buildFeatures_mkInput dates vd vp vpn vr vrn vy vw vaf vve m65 m75 m85 f65 f75 f85, ?_⟩
  have ha' : a = "65" ∨ a = "75" ∨ a = "85" := by simpa [agelist] using ha
  rcases ha' with rfl | rfl | rfl <;>
    refine ⟨?_, ?_, ?_, ?_⟩ <;>
      (simp only [cellD, Table.getCol?, mkBuilt, mkInput, List.find?, String.reduceBEq,
        String.reduceAppend, Option.map, Option.getD, cond, ite_true, ite_false, reduceIte,
        Bool.false_eq_true, Bool.true_eq_false];
       apply getD_colMul_colAdd _ _ _ n i <;>
         first
         | exact Hvy | exact Hvw | exact Hvaf | exact Hvve
         | exact Hm65 | exact Hm75 | exact Hm85
         | exact Hf65 | exact Hf75 | exact Hf85 | exact hi)

/-- Witness for C1 at a concrete one-row table (a male 65-74 winter row). -/
theorem C1_feature_builder_witness :
    colsLen 1 [[(0 : ℚ)], [1], [3], [2], [1], [0], [0], [0], [0], [0]] ∧
    "65" ∈ agelist ∧ 0 < 1 ∧
    (∃ T, buildFeatures agelist
        (mkInput [⟨2011, 2, 28⟩] [5] [100] [100] [2] [2] [0] [1] [3] [2]
          [1] [0] [0] [0] [0] [0]) = Except.ok T ∧
      cellD T ("WINT_" ++ "65") 0 =
        cellD (mkInput [⟨2011, 2, 28⟩] [5] [100] [100] [2] [2] [0] [1] [3] [2]
          [1] [0] [0] [0] [0] [0]) "Winter" 0 *
          (cellD (mkInput [⟨2011, 2, 28⟩] [5] [100] [100] [2] [2] [0] [1] [3] [2]
            [1] [0] [0] [0] [0] [0]) ("Age=M" ++ "65") 0 +
           cellD (mkInput [⟨2011, 2, 28⟩] [5] [100] [100] [2] [2] [0] [1] [3] [2]
            [1] [0] [0] [0] [0] [0]) ("Age=F" ++ "65") 0) ∧
      cellD T ("IMP_" ++ "65") 0 =
        cellD (mkInput [⟨2011, 2, 28⟩] [5] [100] [100] [2] [2] [0] [1] [3] [2]
          [1] [0] [0] [0] [0] [0]) "Year" 0 *
          (cellD (mkInput [⟨2011, 2, 28⟩] [5] [100] [100] [2] [2] [0] [1] [3] [2]
            [1] [0] [0] [0] [0] [0]) ("Age=M" ++ "65") 0 +
           cellD (mkInput [⟨2011, 2, 28⟩] [5] [100] [100] [2] [2] [0] [1] [3] [2]
            [1] [0] [0] [0] [0] [0]) ("Age=F" ++ "65") 0) ∧
      cellD T ("AF_" ++ "65") 0 =
        cellD (mkInput [⟨2011, 2, 28⟩] [5] [100] [100] [2] [2] [0] [1] [3] [2]
          [1] [0] [0] [0] [0] [0]) "AF" 0 *
          (cellD (mkInput [⟨2011, 2, 28⟩] [5] [100] [100] [2] [2] [0] [1] [3] [2]
            [1] [0] [0] [0] [0] [0]) ("Age=M" ++ "65") 0 +
           cellD (mkInput [⟨2011, 2, 28⟩] [5] [100] [100] [2] [2] [0] [1] [3] [2]
            [1] [0] [0] [0] [0] [0]) ("Age=F" ++ "65") 0) ∧
      cellD T ("VE_" ++ "65") 0 =
        cellD (mkInput [⟨2011, 2, 28⟩] [5] [100] [100] [2] [2] [0] [1] [3] [2]
          [1] [0] [0] [0] [0] [0]) "VE" 0 *
          (cellD (mkInput [⟨2011, 2, 28⟩] [5] [100] [100] [2] [2] [0] [1] [3] [2]
            [1] [0] [0] [0] [0] [0]) ("Age=M" ++ "65") 0 +
           cellD (mkInput [⟨2011, 2, 28⟩] [5] [100] [100] [2] [2] [0] [1] [3] [2]
            [1] [0] [0] [0] [0] [0]) ("Age=F" ++ "65") 0)) :=
  ⟨by decide, by decide, by decide,
    C1_feature_builder [⟨2011, 2, 28⟩] [5] [100] [100] [2] [2] [0] [1] [3] [2]
      [1] [0] [0] [0] [0] [0] 1 _ rfl (by decide) "65" (by decide) 0 (by decide)⟩

theorem cont_row_sum (cols : List (String × Col)) (ks : List ℚ) (persons : Col) (i : Nat)
    (hc : ∀ c ∈ cols, i < c.2.length) (hp : i < persons.length) :
    ((List.zipWith (fun c k => (c.1, contCol k c.2 persons)) cols ks).map
        (fun c => c.2.getD i 0)).sum =
      dot ks (cols.map (fun c => c.2.getD i 0)) * persons.getD i 0 / 1000 / 52 := by
  induction cols generalizing ks with
  | nil => simp [dot]
  | cons c cols ih =>
    cases ks with
    | nil => simp [dot]
    | cons k ks =>
      have hhead : (contCol k c.2 persons).getD i 0 =
          c.2.getD i 0 * k * persons.getD i 0 / 1000 / 52 := by
        unfold contCol
        exact getD_zipWith _ _ _ i (hc c (by simp)) hp 0
      have ih' := ih ks (fun x hx => hc x (List.mem_cons_of_mem c hx))
      simp only [List.zipWith_cons_cons, List.map_cons, List.sum_cons, hhead, ih']
      simp only [dot, List.zipWith_cons_cons, List.sum_cons]
      ring

/-- C2: for every row, the sum over all predictor columns of the per-feature
contribution (`coefficient * feature value * Persons / 1000 / 52`, the rows of
`X_cont`) plus the intercept scaled the same way equals the full model's
predicted death count `PredD` for that row. -/
theorem C2_contribution_decomposition (m : Model) (xpred : Table) (persons : Col)
    (n i : Nat)
    (hcoef : m.coef.length = xpred.cols.length)
    (hcols : ∀ c ∈ xpred.cols, c.2.length = n)
    (hp : persons.length = n)
    (hn : xpred.index.length = n)
    (hi : i < n) :
    ((contTable m persons xpred).row i).sum +
        m.intercept * persons.getD i 0 / 1000 / 52 =
      (predDCol persons (predictCol m xpred)).getD i 0 := by
  have hlenPred : i < (predictCol m xpred).length := by
    simp [predictCol, hn, hi]
  have hR : (predDCol persons (predictCol m xpred)).getD i 0 =
      persons.getD i 0 * (predictCol m xpred).getD i 0 / 1000 / 52 := by
    unfold predDCol
    exact getD_zipWith _ _ _ i (by omega) hlenPred 0
  have hPred : (predictCol m xpred).getD i 0 = m.predictRow (xpred.row i) := by
    unfold predictCol
    exact getD_range_map _ _ i (by omega) 0
  have hL : ((contTable m persons xpred).row i).sum =
      dot m.coef (xpred.cols.map (fun c => c.2.getD i 0)) * persons.getD i 0 / 1000 / 52 := by
    show ((List.zipWith (fun c k => (c.1, contCol k c.2 persons)) xpred.cols m.coef).map
        (fun c => c.2.getD i 0)).sum = _
    exact cont_row_sum xpred.cols m.coef persons i
      (fun c hc => by rw [hcols c hc]; exact hi) (by omega)
  rw [hL, hR, hPred]
  unfold Model.predictRow Table.row
  ring

/-- Witness for C2 at a concrete model and two-column, one-row predictor
table. -/
theorem C2_contribution_decomposition_witness :
    (Model.mk [(2 : ℚ), 3] 5).coef.length =
        (Table.mk [⟨2011, 2, 28⟩] [("a", [(4 : ℚ)]), ("b", [(7 : ℚ)])]).cols.length ∧
    (∀ c ∈ (Table.mk [⟨2011, 2, 28⟩] [("a", [(4 : ℚ)]), ("b", [(7 : ℚ)])]).cols,
        c.2.length = 1) ∧
    [(1000 : ℚ)].length = 1 ∧
    (Table.mk [⟨2011, 2, 28⟩] [("a", [(4 : ℚ)]), ("b", [(7 : ℚ)])]).index.length = 1 ∧
    0 < 1 ∧
    ((contTable (Model.mk [(2 : ℚ), 3] 5) [(1000 : ℚ)]
          (Table.mk [⟨2011, 2, 28⟩] [("a", [(4 : ℚ)]), ("b", [(7 : ℚ)])])).row 0).sum +
        (Model.mk [(2 : ℚ), 3] 5).intercept * [(1000 : ℚ)].getD 0 0 / 1000 / 52 =
      (predDCol [(1000 : ℚ)]
          (predictCol (Model.mk [(2 : ℚ), 3] 5)
            (Table.mk [⟨2011, 2, 28⟩] [("a", [(4 : ℚ)]), ("b", [(7 : ℚ)])]))).getD 0 0 :=
  ⟨by decide, by decide, by decide, by decide, by decide,
    C2_contribution_decomposition (Model.mk [(2 : ℚ), 3] 5)
      (Table.mk [⟨2011, 2, 28⟩] [("a", [(4 : ℚ)]), ("b", [(7 : ℚ)])]) [(1000 : ℚ)] 1 0
      (by decide) (by decide) (by decide) (by decide) (by decide)⟩

/-- C3: both fitted models are applied to every row of the table (training and
holdout rows alike: the prediction columns have one entry per row of `X`), and
for every row `PredD = PredR * Persons / 1000 / 52` and
`PredD_Base = PredR_Base * Persons / 1000 / 52`, with the constant 52 exactly. -/
theorem C3_predicted_death_counts (m mbase : Model) (dates : List QDate)
    (vd vp vpn vr vrn vy vw vaf vve m65 m75 m85 f65 f75 f85 : Col) (n : Nat)
    (X : Table)
    (hX : X = mkX dates vd vp vpn vr vrn vy vw vaf vve m65 m75 m85 f65 f75 f85)
    (hd : dates.length = n) (hp : vp.length = n) (i : Nat) (hi : i < n) :
    ∃ X', runPredictions m mbase vp X = Except.ok X' ∧
      (∃ cr, X'.getCol "PredR" = Except.ok cr ∧ cr.length = n ∧
        cr.getD i 0 = m.predictRow ((ilocFrom 9 X).row i)) ∧
      cellD X' "PredD" i = cellD X' "PredR" i * vp.getD i 0 / 1000 / 52 ∧
      (∃ cb, X'.getCol "PredR_Base" = Except.ok cb ∧ cb.length = n ∧
        cb.getD i 0 = mbase.predictRow ((ilocTake 12 (ilocFrom 9 X)).row i)) ∧
      cellD X' "PredD_Base" i =
        cellD X' "PredR_Base" i * vp.getD i 0 / 1000 / 52 := by
  subst hX
  rw [runPredictions_mkX, ilocFrom_mkX]
  refine ⟨_, rfl, ?_, ?_, ?_, ?_⟩
  · refine ⟨predictCol m (mkXpredictors dates vy vw vaf vve m65 m75 m85 f65 f75 f85),
      ?_, ?_, ?_⟩
    · simp only [mkXPred, Table.getCol, Table.getCol?, List.find?, String.reduceBEq,
        Option.map, cond, ite_true, ite_false, reduceIte, Bool.false_eq_true]
    · simp [predictCol, mkXpredictors, hd]
    · exact getD_range_map _ _ i (by simp [mkXpredictors]; omega) 0
  · simp only [cellD, mkXPred, Table.getCol?, List.find?, String.reduceBEq,
      Option.map, Option.getD, cond, ite_true, ite_false, reduceIte, Bool.false_eq_true]
    unfold predDCol
    rw [getD_zipWith _ _ _ i (by omega)
      (by simp [predictCol, mkXpredictors]; omega) 0]
    ring
  · refine ⟨predictCol mbase
        (ilocTake 12 (mkXpredictors dates vy vw vaf vve m65 m75 m85 f65 f75 f85)),
      ?_, ?_, ?_⟩
    · simp only [mkXPred, Table.getCol, Table.getCol?, List.find?, String.reduceBEq,
        Option.map, cond, ite_true, ite_false, reduceIte, Bool.false_eq_true]
    · simp [predictCol, mkXpredictors, ilocTake, hd]
    · exact getD_range_map _ _ i (by simp [mkXpredictors, ilocTake]; omega) 0
  · simp only [cellD, mkXPred, Table.getCol?, List.find?, String.reduceBEq,
      Option.map, Option.getD, cond, ite_true, ite_false, reduceIte, Bool.false_eq_true]
    unfold predDCol
    rw [getD_zipWith _ _ _ i (by omega)
      (by simp [predictCol, mkXpredictors, ilocTake]; omega) 0]
    ring

/-- A concrete one-row prepared table for the C3 witness. -/
def c3X : Table :=
  mkX [⟨2011, 2, 28⟩] [5] [100] [100] [2] [2] [0] [1] [3] [2] [1] [0] [0] [0] [0] [0]

/-- A concrete full model for the C3 witness. -/
def c3m : Model := Model.mk (List.replicate 18 1) 2

/-- A concrete base model for the C3 witness. -/
def c3mb : Model := Model.mk (List.replicate 12 1) 3

/-- Witness for C3 at a concrete one-row table and concrete models. -/
theorem C3_predicted_death_counts_witness :
    ([⟨2011, 2, 28⟩] : List QDate).length = 1 ∧ [(100 : ℚ)].length = 1 ∧ (0 : Nat) < 1 ∧
    (∃ X', runPredictions c3m c3mb [(100 : ℚ)] c3X = Except.ok X' ∧
      (∃ cr, X'.getCol "PredR" = Except.ok cr ∧ cr.length = 1 ∧
        cr.getD 0 0 = c3m.predictRow ((ilocFrom 9 c3X).row 0)) ∧
      cellD X' "PredD" 0 = cellD X' "PredR" 0 * [(100 : ℚ)].getD 0 0 / 1000 / 52 ∧
      (∃ cb, X'.getCol "PredR_Base" = Except.ok cb ∧ cb.length = 1 ∧
        cb.getD 0 0 = c3mb.predictRow ((ilocTake 12 (ilocFrom 9 c3X)).row 0)) ∧
      cellD X' "PredD_Base" 0 =
        cellD X' "PredR_Base" 0 * [(100 : ℚ)].getD 0 0 / 1000 / 52) :=
  ⟨rfl, rfl, by decide,
    C3_predicted_death_counts c3m c3mb [⟨2011, 2, 28⟩]
      [5] [100] [100] [2] [2] [0] [1] [3] [2] [1] [0] [0] [0] [0] [0] 1 c3X
      rfl rfl rfl 0 (by decide)⟩

/-- C5: running the Dataset Splitter twice with the same seed and the same
input (same rows in the same order, same target, same test size) produces
identical train/test partitions: the splitter is a deterministic function of
its inputs. -/
theorem C5_splitter_deterministic (X X' : Table) (y y' : Col) (ts ts' : ℚ)
    (s s' : Nat) (hX : X = X') (hy : y = y') (hts : ts = ts') (hs : s = s') :
    trainTestSplit X y ts s = trainTestSplit X' y' ts' s' := by
  subst hX; subst hy; subst hts; subst hs; rfl

/-- A concrete five-row table for the C5 witness. -/
def c5T : Table :=
  Table.mk [⟨2010, 2, 28⟩, ⟨2010, 5, 31⟩, ⟨2010, 8, 31⟩, ⟨2010, 11, 30⟩, ⟨2011, 2, 28⟩]
    [("Rate", [1, 2, 3, 4, 5])]

/-- Witness for C5: two runs at the notebook's seed `10101` coincide. -/
theorem C5_splitter_deterministic_witness :
    c5T = c5T ∧ [(1 : ℚ), 2, 3, 4, 5] = [(1 : ℚ), 2, 3, 4, 5] ∧
    (1 / 5 : ℚ) = (1 / 5 : ℚ) ∧ (10101 : Nat) = 10101 ∧
    trainTestSplit c5T [(1 : ℚ), 2, 3, 4, 5] (1 / 5) 10101 =
      trainTestSplit c5T [(1 : ℚ), 2, 3, 4, 5] (1 / 5) 10101 :=
  ⟨rfl, rfl, rfl, rfl,
    C5_splitter_deterministic c5T c5T [(1 : ℚ), 2, 3, 4, 5] [(1 : ℚ), 2, 3, 4, 5]
      (1 / 5) (1 / 5) 10101 10101 rfl rfl rfl rfl⟩

/-- C8: every row appearing in a winter-quarter-only aggregated output has a
date index whose month is the winter-quarter month (February, the quarter-end
month of the winter quarter); no row with another month appears. -/
theorem C8_winter_filter_months (t : Table) (d : QDate)
    (hd : d ∈ ((winterFilter t).groupSum).index) : d.month = 2 := by
  have hd' : d ∈ (winterFilter t).index.dedup := by
    simpa [Table.groupSum] using hd
  have hmem : d ∈ (winterFilter t).index := List.mem_dedup.mp hd'
  have hmap : d ∈ (winterRows t).map (fun i => t.index.getD i default) := by
    simpa [winterFilter, Table.filterRows] using hmem
  rcases List.mem_map.mp hmap with ⟨i, hi, hdi⟩
  unfold winterRows at hi
  have hpred := (List.mem_filter.mp hi).2
  rw [← hdi]
  simpa using hpred

/-- Witness for C8: a two-row table with one February and one May row; the
winter-aggregated output contains the February date. -/
theorem C8_winter_filter_months_witness :
    (⟨2011, 2, 28⟩ : QDate) ∈
      ((winterFilter (Table.mk [⟨2011, 2, 28⟩, ⟨2011, 5, 31⟩]
        [("Deaths", [3, 4])])).groupSum).index ∧
    (⟨2011, 2, 28⟩ : QDate).month = 2 :=
  ⟨by decide,
    C8_winter_filter_months
      (Table.mk [⟨2011, 2, 28⟩, ⟨2011, 5, 31⟩] [("Deaths", [3, 4])])
      ⟨2011, 2, 28⟩ (by decide)⟩

/-- Name lookup `find?` commutes with a name-preserving column transformation. -/
theorem find?_fst_map (f : (String × Col) → Col) (l : List (String × Col)) (nm : String) :
    List.find? (fun c => c.1 == nm) (l.map (fun c => (c.1, f c))) =
      (List.find? (fun c => c.1 == nm) l).map (fun c => (c.1, f c)) := by
  induction l with
  | nil => rfl
  | cons a l ih =>
    by_cases h : a.1 == nm
    · simp [List.find?, h]
    · simp only [List.map_cons, List.find?, h]
      exact ih

/-- Looking a column up in the grouped table gives its per-date sums. -/
theorem getCol?_groupSum (t : Table) (nm : String) (c : Col)
    (h : t.getCol? nm = some c) :
    (t.groupSum).getCol? nm =
      some (t.index.dedup.map
        (fun d => ((datePositions t d).map (fun i => c.getD i 0)).sum)) := by
  unfold Table.getCol? at h
  rcases hf : t.cols.find? (fun c => c.1 == nm) with _ | c0
  · rw [hf] at h; simp at h
  · rw [hf] at h
    have hc : c0.2 = c := by simpa using h
    unfold Table.groupSum Table.getCol?
    rw [find?_fst_map
      (fun c => t.index.dedup.map
        (fun d => ((datePositions t d).map (fun i => c.2.getD i 0)).sum)) t.cols nm,
      hf]
    simp [hc]

/-- C7: for every date of the aggregated output, the Aggregator's derived rate
equals the sum of the death counts across the rows for that date, divided by
the sum of their populations, times 1000, times 52. -/
theorem C7_aggregated_rate (t : Table) (cd cp : Col) (j : Nat)
    (hD : t.getCol? "Deaths" = some cd) (hP : t.getCol? "Persons" = some cp)
    (hj : j < t.index.dedup.length) :
    ∃ rs, rateSeries t.groupSum = Except.ok rs ∧
      rs.getD j 0 =
        ((datePositions t (t.index.dedup.getD j default)).map (fun i => cd.getD i 0)).sum /
          ((datePositions t (t.index.dedup.getD j default)).map (fun i => cp.getD i 0)).sum *
          1000 * 52 := by
  have hgD := getCol?_groupSum t "Deaths" cd hD
  have hgP := getCol?_groupSum t "Persons" cp hP
  refine ⟨List.zipWith (fun a b => a / b * 1000 * 52)
      (t.index.dedup.map (fun d => ((datePositions t d).map (fun i => cd.getD i 0)).sum))
      (t.index.dedup.map (fun d => ((datePositions t d).map (fun i => cp.getD i 0)).sum)),
    ?_, ?_⟩
  · unfold rateSeries Table.getCol
    rw [hgD, hgP]
    rfl
  · rw [getD_zipWith _ _ _ j (by simpa using hj) (by simpa using hj) 0]
    have hd' : (t.index.dedup.map
        (fun d => ((datePositions t d).map (fun i => cd.getD i 0)).sum)).getD j 0 =
        ((datePositions t (t.index.dedup.getD j default)).map (fun i => cd.getD i 0)).sum := by
      rw [List.getD_eq_getElem _ _ (by simpa using hj), List.getElem_map,
        List.getD_eq_getElem _ _ hj]
    have hp' : (t.index.dedup.map
        (fun d => ((datePositions t d).map (fun i => cp.getD i 0)).sum)).getD j 0 =
        ((datePositions t (t.index.dedup.getD j default)).map (fun i => cp.getD i 0)).sum := by
      rw [List.getD_eq_getElem _ _ (by simpa using hj), List.getElem_map,
        List.getD_eq_getElem _ _ hj]
    rw [hd', hp']

/-- Witness for C7: two sex-split rows on one date with deaths {10, 12} and
populations {1000, 1100}; the aggregated rate is `(22/2100)*1000*52 = 11440/21
≈ 544.76`. -/
theorem C7_aggregated_rate_witness :
    (Table.mk [⟨2011, 2, 28⟩, ⟨2011, 2, 28⟩]
        [("Deaths", [10, 12]), ("Persons", [1000, 1100])]).getCol? "Deaths" =
      some [10, 12] ∧
    (Table.mk [⟨2011, 2, 28⟩, ⟨2011, 2, 28⟩]
        [("Deaths", [10, 12]), ("Persons", [1000, 1100])]).getCol? "Persons" =
      some [1000, 1100] ∧
    0 < (Table.mk [⟨2011, 2, 28⟩, ⟨2011, 2, 28⟩]
        [("Deaths", [10, 12]), ("Persons", [1000, 1100])]).index.dedup.length ∧
    (∃ rs, rateSeries (Table.mk [⟨2011, 2, 28⟩, ⟨2011, 2, 28⟩]
        [("Deaths", [10, 12]), ("Persons", [1000, 1100])]).groupSum = Except.ok rs ∧
      rs.getD 0 0 = 11440 / 21) := by
  have h := C7_aggregated_rate
    (Table.mk [⟨2011, 2, 28⟩, ⟨2011, 2, 28⟩]
      [("Deaths", [10, 12]), ("Persons", [1000, 1100])])
    [10, 12] [1000, 1100] 0 rfl rfl (by decide)
  refine ⟨rfl, rfl, by decide, ?_⟩
  rcases h with ⟨rs, h1, h2⟩
  refine ⟨rs, h1, ?_⟩
  rw [h2]
  rw [show (Table.mk [⟨2011, 2, 28⟩, ⟨2011, 2, 28⟩]
      [("Deaths", ([10, 12] : Col)), ("Persons", ([1000, 1100] : Col))]).index.dedup =
      [⟨2011, 2, 28⟩] from by decide]
  simp only [List.getD_cons_zero]
  rw [show datePositions (Table.mk [⟨2011, 2, 28⟩, ⟨2011, 2, 28⟩]
      [("Deaths", ([10, 12] : Col)), ("Persons", ([1000, 1100] : Col))]) ⟨2011, 2, 28⟩ =
      [0, 1] from by decide]
  norm_num [List.map, List.sum_cons, List.sum_nil]

theorem getD_colMul_colAdd_zero (b m f : Col) (i : Nat)
    (hm : m.getD i 0 = 0) (hf : f.getD i 0 = 0) :
    (colMul b (colAdd m f)).getD i 0 = 0 := by
  by_cases h : i < (colMul b (colAdd m f)).length
  · have hlen : i < b.length ∧ i < m.length ∧ i < f.length := by
      simp [colMul, colAdd, List.length_zipWith] at h
      omega
    rw [colMul, getD_zipWith _ _ _ i hlen.1
      (by rw [colAdd, List.length_zipWith]; omega) 0]
    rw [colAdd, getD_zipWith _ _ _ i hlen.2.1 hlen.2.2 0, hm, hf]
    ring
  · exact getD_of_le _ _ (by omega) 0

theorem contCol_getD_zero (k : ℚ) (c p : Col) (i : Nat) (hc : c.getD i 0 = 0) :
    (contCol k c p).getD i 0 = 0 := by
  by_cases h : i < (contCol k c p).length
  · have hlen : i < c.length ∧ i < p.length := by
      simp [contCol, List.length_zipWith] at h
      omega
    rw [contCol, getD_zipWith _ _ _ i hlen.1 hlen.2 0, hc]
    ring
  · exact getD_of_le _ _ (by omega) 0

/-- Summing an interaction-feature contribution column over any row set equals
summing it over only the rows the age-band filter keeps: the other rows
contribute exactly 0. -/
theorem band_cont_sum (b m f : Col) (k : ℚ) (persons : Col) (l : List Nat)
    (hbm : ∀ i ∈ l, m.getD i 0 = 0 ∨ m.getD i 0 = 1)
    (hbf : ∀ i ∈ l, f.getD i 0 = 0 ∨ f.getD i 0 = 1) :
    (l.map (fun i => (contCol k (colMul b (colAdd m f)) persons).getD i 0)).sum =
      ((l.filter (fun i => m.getD i 0 == 1 || f.getD i 0 == 1)).map
        (fun i => (contCol k (colMul b (colAdd m f)) persons).getD i 0)).sum := by
  apply sum_map_filter_of_zero
  intro i hi hp
  simp only [Bool.or_eq_false_iff, beq_eq_false_iff_ne, ne_eq] at hp
  have hm0 : m.getD i 0 = 0 := by
    rcases hbm i hi with h0 | h1
    · exact h0
    · exact absurd h1 hp.1
  have hf0 : f.getD i 0 = 0 := by
    rcases hbf i hi with h0 | h1
    · exact h0
    · exact absurd h1 hp.2
  exact contCol_getD_zero k _ persons i (getD_colMul_colAdd_zero b m f i hm0 hf0)

/-- C10: for every row and age band `a`, each interaction column `f_a` is zero
whenever the row's `Age=M{a}` and `Age=F{a}` indicators are both 0; hence
summing a contribution column `f_a` over all rows sharing a date — without any
age-band filter — equals the sum over only the rows the age-band filter
(`indicator == 1`) keeps, i.e. the band-`a` contribution total at that date. -/
theorem C10_band_zero_invariant (dates : List QDate)
    (vd vp vpn vr vrn vy vw vaf vve m65 m75 m85 f65 f75 f85 : Col)
    (t : Table)
    (ht : t = mkInput dates vd vp vpn vr vrn vy vw vaf vve m65 m75 m85 f65 f75 f85)
    (a : String) (ha : a ∈ agelist)
    (hbm : ∀ i, cellD t ("Age=M" ++ a) i = 0 ∨ cellD t ("Age=M" ++ a) i = 1)
    (hbf : ∀ i, cellD t ("Age=F" ++ a) i = 0 ∨ cellD t ("Age=F" ++ a) i = 1) :
    ∃ T, buildFeatures agelist t = Except.ok T ∧
      (∀ nm ∈ ["WINT_" ++ a, "IMP_" ++ a, "AF_" ++ a, "VE_" ++ a], ∀ i,
        cellD t ("Age=M" ++ a) i = 0 → cellD t ("Age=F" ++ a) i = 0 →
          cellD T nm i = 0) ∧
      (∀ nm ∈ ["WINT_" ++ a, "IMP_" ++ a, "AF_" ++ a, "VE_" ++ a],
        ∀ (k : ℚ) (persons : Col) (d : QDate) (fa : Col),
          T.getCol nm = Except.ok fa →
          ((datePositions T d).map (fun i => (contCol k fa persons).getD i 0)).sum =
            (((datePositions T d).filter (fun i =>
                cellD t ("Age=M" ++ a) i == 1 || cellD t ("Age=F" ++ a) i == 1)).map
              (fun i => (contCol k fa persons).getD i 0)).sum) := by
  subst ht
  have ha' : a = "65" ∨ a = "75" ∨ a = "85" := by simpa [agelist] using ha
  rcases ha' with rfl | rfl | rfl <;>
    (simp only [cellD, Table.getCol?, mkInput, List.find?, String.reduceBEq,
       String.reduceAppend, Option.map, Option.getD] at hbm hbf;
     refine ⟨_, buildFeatures_mkInput dates vd vp vpn vr vrn vy vw vaf vve
       m65 m75 m85 f65 f75 f85, ?_, ?_⟩)
  case _ =>
    intro nm hnm i h1 h2
    simp only [cellD, Table.getCol?, mkInput, List.find?, String.reduceBEq,
      String.reduceAppend, Option.map, Option.getD] at h1 h2
    simp only [List.mem_cons, List.mem_singleton, List.not_mem_nil, or_false] at hnm
    rcases hnm with rfl | rfl | rfl | rfl <;>
      (simp only [cellD, Table.getCol, Table.getCol?, mkBuilt, List.find?,
         String.reduceBEq, String.reduceAppend, Option.map, Option.getD];
       exact getD_colMul_colAdd_zero _ _ _ i h1 h2)
  case _ =>
    intro nm hnm k persons d fa hfa
    simp only [cellD, Table.getCol?, mkInput, List.find?, String.reduceBEq,
      String.reduceAppend, Option.map, Option.getD]
    simp only [List.mem_cons, List.mem_singleton, List.not_mem_nil, or_false] at hnm
    rcases hnm with rfl | rfl | rfl | rfl <;>
      (simp only [Table.getCol, Table.getCol?, mkBuilt, List.find?, String.reduceBEq,
         String.reduceAppend, Option.map, Except.ok.injEq] at hfa;
       subst hfa;
       exact band_cont_sum _ _ _ k persons _ (fun i _ => hbm i) (fun i _ => hbf i))
  case _ =>
    intro nm hnm i h1 h2
    simp only [cellD, Table.getCol?, mkInput, List.find?, String.reduceBEq,
      String.reduceAppend, Option.map, Option.getD] at h1 h2
    simp only [List.mem_cons, List.mem_singleton, List.not_mem_nil, or_false] at hnm
    rcases hnm with rfl | rfl | rfl | rfl <;>
      (simp only [cellD, Table.getCol, Table.getCol?, mkBuilt, List.find?,
         String.reduceBEq, String.reduceAppend, Option.map, Option.getD];
       exact getD_colMul_colAdd_zero _ _ _ i h1 h2)
  case _ =>
    intro nm hnm k persons d fa hfa
    simp only [cellD, Table.getCol?, mkInput, List.find?, String.reduceBEq,
      String.reduceAppend, Option.map, Option.getD]
    simp only [List.mem_cons, List.mem_singleton, List.not_mem_nil, or_false] at hnm
    rcases hnm with rfl | rfl | rfl | rfl <;>
      (simp only [Table.getCol, Table.getCol?, mkBuilt, List.find?, String.reduceBEq,
         String.reduceAppend, Option.map, Except.ok.injEq] at hfa;
       subst hfa;
       exact band_cont_sum _ _ _ k persons _ (fun i _ => hbm i) (fun i _ => hbf i))
  case _ =>
    intro nm hnm i h1 h2
    simp only [cellD, Table.getCol?, mkInput, List.find?, String.reduceBEq,
      String.reduceAppend, Option.map, Option.getD] at h1 h2
    simp only [List.mem_cons, List.mem_singleton, List.not_mem_nil, or_false] at hnm
    rcases hnm with rfl | rfl | rfl | rfl <;>
      (simp only [cellD, Table.getCol, Table.getCol?, mkBuilt, List.find?,
         String.reduceBEq, String.reduceAppend, Option.map, Option.getD];
       exact getD_colMul_colAdd_zero _ _ _ i h1 h2)
  case _ =>
    intro nm hnm k persons d fa hfa
    simp only [cellD, Table.getCol?, mkInput, List.find?, String.reduceBEq,
      String.reduceAppend, Option.map, Option.getD]
    simp only [List.mem_cons, List.mem_singleton, List.not_mem_nil, or_false] at hnm
    rcases hnm with rfl | rfl | rfl | rfl <;>
      (simp only [Table.getCol, Table.getCol?, mkBuilt, List.find?, String.reduceBEq,
         String.reduceAppend, Option.map, Except.ok.injEq] at hfa;
       subst hfa;
       exact band_cont_sum _ _ _ k persons _ (fun i _ => hbm i) (fun i _ => hbf i))

/-- A concrete one-row observation table (a male 65-74 row) for the C10
witness. -/
def c10T : Table :=
  mkInput [⟨2011, 2, 28⟩] [5] [100] [100] [2] [2] [0] [1] [3] [2] [1] [0] [0] [0] [0] [0]

/-- Witness for C10 at the concrete table `c10T` and band `"65"`. -/
theorem C10_band_zero_invariant_witness :
    ("65" ∈ agelist) ∧
    (∀ i, cellD c10T ("Age=M" ++ "65") i = 0 ∨ cellD c10T ("Age=M" ++ "65") i = 1) ∧
    (∀ i, cellD c10T ("Age=F" ++ "65") i = 0 ∨ cellD c10T ("Age=F" ++ "65") i = 1) ∧
    (∃ T, buildFeatures agelist c10T = Except.ok T ∧
      (∀ nm ∈ ["WINT_" ++ "65", "IMP_" ++ "65", "AF_" ++ "65", "VE_" ++ "65"], ∀ i,
        cellD c10T ("Age=M" ++ "65") i = 0 → cellD c10T ("Age=F" ++ "65") i = 0 →
          cellD T nm i = 0) ∧
      (∀ nm ∈ ["WINT_" ++ "65", "IMP_" ++ "65", "AF_" ++ "65", "VE_" ++ "65"],
        ∀ (k : ℚ) (persons : Col) (d : QDate) (fa : Col),
          T.getCol nm = Except.ok fa →
          ((datePositions T d).map (fun i => (contCol k fa persons).getD i 0)).sum =
            (((datePositions T d).filter (fun i =>
                cellD c10T ("Age=M" ++ "65") i == 1 ||
                  cellD c10T ("Age=F" ++ "65") i == 1)).map
              (fun i => (contCol k fa persons).getD i 0)).sum)) := by
  have hbm : ∀ i, cellD c10T ("Age=M" ++ "65") i = 0 ∨ cellD c10T ("Age=M" ++ "65") i = 1 := by
    intro i
    cases i with
    | zero => right; rfl
    | succ j => left; rfl
  have hbf : ∀ i, cellD c10T ("Age=F" ++ "65") i = 0 ∨ cellD c10T ("Age=F" ++ "65") i = 1 := by
    intro i
    cases i with
    | zero => left; rfl
    | succ j => left; rfl
  exact ⟨by decide, hbm, hbf,
    C10_band_zero_invariant [⟨2011, 2, 28⟩] [5] [100] [100] [2] [2] [0] [1] [3] [2]
      [1] [0] [0] [0] [0] [0] c10T rfl "65" (by decide) hbm hbf⟩

theorem bind_ok_reduce {α β : Type} (a : α) (f : α → Except String β) :
    (Except.ok a >>= f) = f a := rfl

theorem bind_error_reduce {α β : Type} (e : String) (f : α → Except String β) :
    ((Except.error e : Except String α) >>= f) = Except.error e := rfl

theorem pure_ok_reduce {α : Type} (a : α) :
    (pure a : Except String α) = Except.ok a := rfl

/-- Inversion of a successful first-loop step: both indicator columns of the
band were present, and the step adds no column name other than `WINT_a` and
`IMP_a`. -/
theorem addSeason_ok_inv (t t' : Table) (a : String)
    (h : addSeasonFeatures t a = Except.ok t') :
    ("Age=M" ++ a) ∈ t.colNames ∧ ("Age=F" ++ a) ∈ t.colNames ∧
      ∀ x ∈ t'.colNames, x ∈ t.colNames ∨ x = "WINT_" ++ a ∨ x = "IMP_" ++ a := by
  unfold addSeasonFeatures at h
  cases hM : t.getCol ("Age=M" ++ a) with
  | error e => rw [hM, bind_error_reduce] at h; exact Except.noConfusion h
  | ok m =>
    rw [hM, bind_ok_reduce] at h
    cases hF : t.getCol ("Age=F" ++ a) with
    | error e => rw [hF, bind_error_reduce] at h; exact Except.noConfusion h
    | ok f =>
      rw [hF, bind_ok_reduce] at h
      cases hW : t.getCol "Winter" with
      | error e => rw [hW, bind_error_reduce] at h; exact Except.noConfusion h
      | ok w =>
        rw [hW, bind_ok_reduce] at h
        have h2 : ((t.setCol ("WINT_" ++ a) (colMul w (colAdd m f))).getCol "Year" >>=
            fun y => pure ((t.setCol ("WINT_" ++ a) (colMul w (colAdd m f))).setCol
              ("IMP_" ++ a) (colMul y (colAdd m f)))) = Except.ok t' := h
        cases hY : (t.setCol ("WINT_" ++ a) (colMul w (colAdd m f))).getCol "Year" with
        | error e => rw [hY, bind_error_reduce] at h2; exact Except.noConfusion h2
        | ok y =>
          rw [hY, bind_ok_reduce, pure_ok_reduce] at h2
          have h' := Except.ok.inj h2
          refine ⟨getCol_ok_mem t _ m hM, getCol_ok_mem t _ f hF, ?_⟩
          intro x hx
          rw [← h'] at hx
          rcases mem_colNames_setCol _ _ _ x hx with hx1 | hx1
          · rcases mem_colNames_setCol _ _ _ x hx1 with hx2 | hx2
            · exact Or.inl hx2
            · exact Or.inr (Or.inl hx2)
          · exact Or.inr (Or.inr hx1)

/-- A successful Feature Builder run implies every required age-band indicator
column was present in the input. -/
theorem buildFeatures_ok_columns (t T : Table)
    (h : buildFeatures agelist t = Except.ok T) :
    ∀ a ∈ agelist, ("Age=M" ++ a) ∈ t.colNames ∧ ("Age=F" ++ a) ∈ t.colNames := by
  have hunfold : buildFeatures agelist t =
      Except.bind
        (Except.bind (addSeasonFeatures t "65") (fun t1 =>
          Except.bind (addSeasonFeatures t1 "75") (fun t2 =>
            Except.bind (addSeasonFeatures t2 "85") (fun t3 => Except.pure t3))))
        (fun t1 =>
          Except.bind (addWeatherFeatures t1 "65") (fun t4 =>
            Except.bind (addWeatherFeatures t4 "75") (fun t5 =>
              Except.bind (addWeatherFeatures t5 "85") (fun t6 => Except.pure t6)))) := rfl
  rw [hunfold] at h
  obtain ⟨tS, hS, _⟩ := except_bind_ok _ _ _ h
  obtain ⟨t1, h65, hS1⟩ := except_bind_ok _ _ _ hS
  obtain ⟨t2, h75, hS2⟩ := except_bind_ok _ _ _ hS1
  obtain ⟨t3, h85, _⟩ := except_bind_ok _ _ _ hS2
  obtain ⟨hM65, hF65, hsub65⟩ := addSeason_ok_inv t t1 "65" h65
  obtain ⟨hM75, hF75, hsub75⟩ := addSeason_ok_inv t1 t2 "75" h75
  obtain ⟨hM85, hF85, _⟩ := addSeason_ok_inv t2 t3 "85" h85
  have toT : ∀ x, x ∈ t1.colNames → x ≠ "WINT_65" → x ≠ "IMP_65" → x ∈ t.colNames := by
    intro x hx hne1 hne2
    rcases hsub65 x hx with hh | hh | hh
    · exact hh
    · exact absurd hh hne1
    · exact absurd hh hne2
  have toT1 : ∀ x, x ∈ t2.colNames → x ≠ "WINT_75" → x ≠ "IMP_75" → x ∈ t1.colNames := by
    intro x hx hne1 hne2
    rcases hsub75 x hx with hh | hh | hh
    · exact hh
    · exact absurd hh hne1
    · exact absurd hh hne2
  intro a ha
  have ha' : a = "65" ∨ a = "75" ∨ a = "85" := by simpa [agelist] using ha
  rcases ha' with rfl | rfl | rfl
  · exact ⟨hM65, hF65⟩
  · exact ⟨toT _ hM75 (by decide) (by decide), toT _ hF75 (by decide) (by decide)⟩
  · refine ⟨toT _ (toT1 _ hM85 (by decide) (by decide)) (by decide) (by decide),
      toT _ (toT1 _ hF85 (by decide) (by decide)) (by decide) (by decide)⟩

/-- C9: if any required indicator column `Age=M{a}` or `Age=F{a}` for a
configured age band `a` is absent from the input table, the Feature Builder
fails with an error, and the whole analysis (which builds features before any
model fitting) fails with an error — so no model is ever fitted and no silent
zero-valued interaction column is produced. -/
theorem C9_missing_indicator_fails (t : Table) (a : String) (ha : a ∈ agelist)
    (hmiss : ("Age=M" ++ a) ∉ t.colNames ∨ ("Age=F" ++ a) ∉ t.colNames) :
    (∃ e, buildFeatures agelist t = Except.error e) ∧
    (∀ (fit : Table → Col → Model) (seed : Nat),
      ∃ e, runAnalysis fit seed t = Except.error e) := by
  have hbf : ∃ e, buildFeatures agelist t = Except.error e := by
    cases hb : buildFeatures agelist t with
    | error e => exact ⟨e, rfl⟩
    | ok T =>
      obtain ⟨hM, hF⟩ := buildFeatures_ok_columns t T hb a ha
      rcases hmiss with hm | hm
      · exact absurd hM hm
      · exact absurd hF hm
  obtain ⟨e, he⟩ := hbf
  refine ⟨⟨e, he⟩, ?_⟩
  intro fit seed
  refine ⟨e, ?_⟩
  show Except.bind (buildFeatures agelist t) _ = Except.error e
  rw [he]
  rfl

/-- Witness for C9: a table with a `Winter` column but no `Age=M65` column. -/
theorem C9_missing_indicator_fails_witness :
    ("65" ∈ agelist) ∧
    (("Age=M" ++ "65") ∉ (Table.mk [⟨2011, 2, 28⟩] [("Winter", [1])]).colNames ∨
      ("Age=F" ++ "65") ∉ (Table.mk [⟨2011, 2, 28⟩] [("Winter", [1])]).colNames) ∧
    ((∃ e, buildFeatures agelist (Table.mk [⟨2011, 2, 28⟩] [("Winter", [1])]) =
        Except.error e) ∧
      (∀ (fit : Table → Col → Model) (seed : Nat),
        ∃ e, runAnalysis fit seed (Table.mk [⟨2011, 2, 28⟩] [("Winter", [1])]) =
          Except.error e)) :=
  ⟨by decide, by decide,
    C9_missing_indicator_fails (Table.mk [⟨2011, 2, 28⟩] [("Winter", [1])]) "65"
      (by decide) (by decide)⟩

/-- The full model's predictor columns, `X.iloc[:,9:]`. -/
def fullPredNames : List String :=
  ["Age=M65", "Age=M75", "Age=M85", "Age=F65", "Age=F75", "Age=F85",
   "WINT_65", "IMP_65", "WINT_75", "IMP_75", "WINT_85", "IMP_85",
   "AF_65", "VE_65", "AF_75", "VE_75", "AF_85", "VE_85"]

/-- The base model's predictor columns, `X_pred.iloc[:,:12]`. -/
def basePredNames : List String :=
  ["Age=M65", "Age=M75", "Age=M85", "Age=F65", "Age=F75", "Age=F85",
   "WINT_65", "IMP_65", "WINT_75", "IMP_75", "WINT_85", "IMP_85"]

/-- The frost-days and vaccine-effectiveness interaction columns. -/
def afveNames : List String :=
  ["AF_65", "VE_65", "AF_75", "VE_75", "AF_85", "VE_85"]

/-- C6: the base model's predictor set is a strict subset of the full model's —
exactly the full predictors minus the frost-days and vaccine-effectiveness
interaction columns — and both models are functions of the training partition
alone, so no holdout row influences the coefficients. -/
theorem C6_base_subset_and_train_only (dates : List QDate)
    (vd vp vpn vr vrn vy vw vaf vve m65 m75 m85 f65 f75 f85 : Col)
    (t T : Table)
    (ht : t = mkInput dates vd vp vpn vr vrn vy vw vaf vve m65 m75 m85 f65 f75 f85)
    (hb : buildFeatures agelist t = Except.ok T) :
    (ilocFrom 9 (prepareX T)).colNames = fullPredNames ∧
    (ilocTake 12 (ilocFrom 9 (prepareX T))).colNames = basePredNames ∧
    basePredNames ⊆ fullPredNames ∧
    "AF_65" ∈ fullPredNames ∧ "AF_65" ∉ basePredNames ∧
    basePredNames = fullPredNames.filter (fun nm => !(afveNames.contains nm)) ∧
    (∀ (fit : Table → Col → Model) (xp xp' : Table) (y y' : Col) (seed seed' : Nat),
      (trainTestSplit xp y (1 / 5) seed).1 = (trainTestSplit xp' y' (1 / 5) seed').1 →
      (trainTestSplit xp y (1 / 5) seed).2.2.1 =
        (trainTestSplit xp' y' (1 / 5) seed').2.2.1 →
      fittedModels fit xp y seed = fittedModels fit xp' y' seed') := by
  subst ht
  have hT : T = mkBuilt dates vd vp vpn vr vrn vy vw vaf vve m65 m75 m85 f65 f75 f85 := by
    rw [buildFeatures_mkInput] at hb
    exact (Except.ok.inj hb).symm
  subst hT
  rw [prepareX_mkBuilt]
  refine ⟨rfl, rfl, by decide, by decide, by decide, by decide, ?_⟩
  intro fit xp xp' y y' seed seed' h1 h2
  show (fit (trainTestSplit xp y (1 / 5) seed).1 (trainTestSplit xp y (1 / 5) seed).2.2.1,
      fit (ilocTake 12 (trainTestSplit xp y (1 / 5) seed).1)
        (trainTestSplit xp y (1 / 5) seed).2.2.1) =
    (fit (trainTestSplit xp' y' (1 / 5) seed').1 (trainTestSplit xp' y' (1 / 5) seed').2.2.1,
      fit (ilocTake 12 (trainTestSplit xp' y' (1 / 5) seed').1)
        (trainTestSplit xp' y' (1 / 5) seed').2.2.1)
  rw [h1, h2]

/-- Witness for C6 at a concrete one-row input table. -/
theorem C6_base_subset_and_train_only_witness :
    (c10T = mkInput [⟨2011, 2, 28⟩] [5] [100] [100] [2] [2] [0] [1] [3] [2]
      [1] [0] [0] [0] [0] [0]) ∧
    (buildFeatures agelist c10T = Except.ok
      (mkBuilt [⟨2011, 2, 28⟩] [5] [100] [100] [2] [2] [0] [1] [3] [2]
        [1] [0] [0] [0] [0] [0])) ∧
    ((ilocFrom 9 (prepareX (mkBuilt [⟨2011, 2, 28⟩] [5] [100] [100] [2] [2] [0] [1] [3] [2]
        [1] [0] [0] [0] [0] [0]))).colNames = fullPredNames ∧
     (ilocTake 12 (ilocFrom 9 (prepareX (mkBuilt [⟨2011, 2, 28⟩] [5] [100] [100] [2] [2]
        [0] [1] [3] [2] [1] [0] [0] [0] [0] [0])))).colNames = basePredNames ∧
     basePredNames ⊆ fullPredNames ∧
     "AF_65" ∈ fullPredNames ∧ "AF_65" ∉ basePredNames ∧
     basePredNames = fullPredNames.filter (fun nm => !(afveNames.contains nm)) ∧
     (∀ (fit : Table → Col → Model) (xp xp' : Table) (y y' : Col) (seed seed' : Nat),
       (trainTestSplit xp y (1 / 5) seed).1 = (trainTestSplit xp' y' (1 / 5) seed').1 →
       (trainTestSplit xp y (1 / 5) seed).2.2.1 =
         (trainTestSplit xp' y' (1 / 5) seed').2.2.1 →
       fittedModels fit xp y seed = fittedModels fit xp' y' seed')) :=
  ⟨rfl, buildFeatures_mkInput [⟨2011, 2, 28⟩] [5] [100] [100] [2] [2] [0] [1] [3] [2]
      [1] [0] [0] [0] [0] [0],
    C6_base_subset_and_train_only [⟨2011, 2, 28⟩] [5] [100] [100] [2] [2] [0] [1] [3] [2]
      [1] [0] [0] [0] [0] [0] c10T _ rfl
      (buildFeatures_mkInput [⟨2011, 2, 28⟩] [5] [100] [100] [2] [2] [0] [1] [3] [2]
        [1] [0] [0] [0] [0] [0])⟩

/-- C4 (code bug): the cross-validation cell slices `Xg.iloc[:,7:]` for the
"full model" scores and `Xg.iloc[:,7:19]` for the "base model" scores, but the
models' own predictor sets are `X.iloc[:,9:]` and `X_pred.iloc[:,:12]`: the CV
feature sets are shifted by two, so both include the `PredR_Base` and
`PredD_Base` prediction columns and the base CV set omits `WINT_85` and
`IMP_85`.  The `cv=5` part of the claim does hold: the score list always has
exactly 5 entries. -/
theorem C4_cv_slice_bug :
    ∃ T, buildFeatures agelist c10T = Except.ok T ∧
      (ilocFrom 7 (prepareX T)).colNames =
        "PredR_Base" :: "PredD_Base" :: fullPredNames ∧
      (ilocFrom 7 (prepareX T)).colNames ≠ fullPredNames ∧
      (ilocRange 7 19 (prepareX T)).colNames ≠ basePredNames ∧
      "PredD_Base" ∈ (ilocFrom 7 (prepareX T)).colNames ∧
      "PredD_Base" ∈ (ilocRange 7 19 (prepareX T)).colNames ∧
      "WINT_85" ∈ basePredNames ∧
      "WINT_85" ∉ (ilocRange 7 19 (prepareX T)).colNames ∧
      (∀ (score : Table → Col → Table → Col → ℚ) (y : Col),
        (crossValScore score (ilocFrom 7 (prepareX T)) y 5).length = 5) := by
  refine ⟨_, buildFeatures_mkInput [⟨2011, 2, 28⟩] [5] [100] [100] [2] [2] [0] [1] [3] [2]
    [1] [0] [0] [0] [0] [0], ?_⟩
  rw [prepareX_mkBuilt]
  refine ⟨rfl, by decide, by decide, by decide, by decide, by decide, by decide, ?_⟩
  intro score y
  simp [crossValScore, kfoldSplits]

end SeasonalMortality
